import Mathlib

set_option maxRecDepth 8000

/-!
Shallow embedding of `src/youtube_indexer.py` (a Torznab-to-YouTube
protocol-translation gateway) and proofs about it.

Modelling conventions:
* Python dicts with optional keys become structures with `Option` fields;
  `dict.get(k, d)` becomes `Option.getD`.
* Python integers are `Nat` (all quantities in the program are non-negative).
* The one float computation in the source, `int(duration/60 * 5*1024*1024)`,
  is modelled in exact integer arithmetic as `duration * 5*1024*1024 / 60`
  (floor); on every input appearing in this development (`0`, `120`, `600`)
  the CPython float computation is exact, so the models agree there.
* The global `CONFIG` dict is modelled as an immutable record passed to the
  handler explicitly (the spec's own design note for the global).
* Fallible library calls (`yt_dlp.extract_info`) are passed in as an explicit
  `Except`-valued collaborator function.
-/

namespace YtIdx

/-! ## 32-bit helper arithmetic (for the MD5 model behind `generate_guid`) -/

/-- Truncate to 32 bits. -/
def u32 (x : Nat) : Nat := x % 4294967296

/-- Bitwise AND computed by structural recursion on a 32-step fuel, so that
kernel reduction (`decide`) works. -/
def andBits : Nat → Nat → Nat → Nat
  | 0, _, _ => 0
  | k + 1, a, b => min (a % 2) (b % 2) + 2 * andBits k (a / 2) (b / 2)

def land32 (a b : Nat) : Nat := andBits 32 a b

/-- Bitwise OR via `a + b = (a OR b) + (a AND b)` (valid bitwise identity). -/
def lor32 (a b : Nat) : Nat := a + b - land32 a b

/-- Bitwise XOR via `a + b = (a XOR b) + 2*(a AND b)`. -/
def lxor32 (a b : Nat) : Nat := a + b - 2 * land32 a b

/-- Bitwise NOT on 32 bits (argument assumed `< 2^32`). -/
def lnot32 (a : Nat) : Nat := 4294967295 - a

/-- Rotate a 32-bit word left by `n` (for `0 ≤ n < 32`, argument `< 2^32`). -/
def rotl32 (x n : Nat) : Nat := x % 2 ^ (32 - n) * 2 ^ n + x / 2 ^ (32 - n)

/-! ## MD5 (RFC 1321), the hash behind `generate_guid` -/

/-- The 64 MD5 round constants `T[i] = floor(2^32 * |sin(i+1)|)`. -/
def md5K : List Nat :=
  [0xd76aa478, 0xe8c7b756, 0x242070db, 0xc1bdceee,
   0xf57c0faf, 0x4787c62a, 0xa8304613, 0xfd469501,
   0x698098d8, 0x8b44f7af, 0xffff5bb1, 0x895cd7be,
   0x6b901122, 0xfd987193, 0xa679438e, 0x49b40821,
   0xf61e2562, 0xc040b340, 0x265e5a51, 0xe9b6c7aa,
   0xd62f105d, 0x02441453, 0xd8a1e681, 0xe7d3fbc8,
   0x21e1cde6, 0xc33707d6, 0xf4d50d87, 0x455a14ed,
   0xa9e3e905, 0xfcefa3f8, 0x676f02d9, 0x8d2a4c8a,
   0xfffa3942, 0x8771f681, 0x6d9d6122, 0xfde5380c,
   0xa4beea44, 0x4bdecfa9, 0xf6bb4b60, 0xbebfbc70,
   0x289b7ec6, 0xeaa127fa, 0xd4ef3085, 0x04881d05,
   0xd9d4d039, 0xe6db99e5, 0x1fa27cf8, 0xc4ac5665,
   0xf4292244, 0x432aff97, 0xab9423a7, 0xfc93a039,
   0x655b59c3, 0x8f0ccc92, 0xffeff47d, 0x85845dd1,
   0x6fa87e4f, 0xfe2ce6e0, 0xa3014314, 0x4e0811a1,
   0xf7537e82, 0xbd3af235, 0x2ad7d2bb, 0xeb86d391]

/-- The 64 MD5 per-round left-rotation amounts. -/
def md5S : List Nat :=
  [7, 12, 17, 22, 7, 12, 17, 22, 7, 12, 17, 22, 7, 12, 17, 22,
   5, 9, 14, 20, 5, 9, 14, 20, 5, 9, 14, 20, 5, 9, 14, 20,
   4, 11, 16, 23, 4, 11, 16, 23, 4, 11, 16, 23, 4, 11, 16, 23,
   6, 10, 15, 21, 6, 10, 15, 21, 6, 10, 15, 21, 6, 10, 15, 21]

/-- MD5 round mixing function (round selected by the index `i`). -/
def md5F (i b c d : Nat) : Nat :=
  if i < 16 then lor32 (land32 b c) (land32 (lnot32 b) d)
  else if i < 32 then lor32 (land32 d b) (land32 (lnot32 d) c)
  else if i < 48 then lxor32 b (lxor32 c d)
  else lxor32 c (lor32 b (lnot32 d))

/-- MD5 message-word index for round `i`. -/
def md5G (i : Nat) : Nat :=
  if i < 16 then i
  else if i < 32 then (5 * i + 1) % 16
  else if i < 48 then (3 * i + 5) % 16
  else (7 * i) % 16

/-- The 64 MD5 rounds over one 16-word block (fuel-driven recursion). -/
def md5Rounds : Nat → Nat → List Nat → Nat × Nat × Nat × Nat → Nat × Nat × Nat × Nat
  | 0, _, _, st => st
  | fuel + 1, i, m, (a, b, c, d) =>
    let f := u32 (md5F i b c d + a + md5K.getD i 0 + m.getD (md5G i) 0)
    md5Rounds fuel (i + 1) m (d, u32 (b + rotl32 f (md5S.getD i 0)), b, c)

/-- Process one 64-byte block: decode 16 little-endian words, run the 64
rounds, add the result into the running state. -/
def md5Block (block : List Nat) (st : Nat × Nat × Nat × Nat) : Nat × Nat × Nat × Nat :=
  let m := (List.range 16).map fun j =>
    block.getD (4 * j) 0 + 256 * block.getD (4 * j + 1) 0 +
      65536 * block.getD (4 * j + 2) 0 + 16777216 * block.getD (4 * j + 3) 0
  let r := md5Rounds 64 0 m st
  (u32 (st.1 + r.1), u32 (st.2.1 + r.2.1), u32 (st.2.2.1 + r.2.2.1), u32 (st.2.2.2 + r.2.2.2))

/-- Fold `md5Block` over the 64-byte chunks of the (padded) message; the fuel
is an upper bound on the number of chunks. -/
def md5Blocks : Nat → List Nat → Nat × Nat × Nat × Nat → Nat × Nat × Nat × Nat
  | 0, _, st => st
  | _, [], st => st
  | fuel + 1, bytes, st => md5Blocks fuel (bytes.drop 64) (md5Block (bytes.take 64) st)

/-- MD5 padding: append `0x80`, zero-pad to 56 mod 64, append the original
bit length as 8 little-endian bytes. -/
def md5Pad (msg : List Nat) : List Nat :=
  msg ++ [128] ++ List.replicate ((119 - msg.length % 64) % 64) 0 ++
    (List.range 8).map fun j => 8 * msg.length / 256 ^ j % 256

def md5Init : Nat × Nat × Nat × Nat := (0x67452301, 0xefcdab89, 0x98badcfe, 0x10325476)

/-- MD5 of a byte sequence, as the four 32-bit state words. -/
def md5 (msg : List Nat) : Nat × Nat × Nat × Nat :=
  let p := md5Pad msg
  md5Blocks (p.length / 64 + 1) p md5Init

/-- Lowercase hex digit. -/
def hexDigitChar (n : Nat) : Char :=
  if n < 10 then Char.ofNat (48 + n) else Char.ofNat (87 + n)

/-- The 8 hex characters of one state word, serialized little-endian by bytes
(`hashlib`'s `hexdigest` order). Written as an 8-element list literal so its
length is `8` definitionally, for any word. -/
def wordHexLE (w : Nat) : List Char :=
  [hexDigitChar (w % 256 / 16), hexDigitChar (w % 16),
   hexDigitChar (w / 256 % 256 / 16), hexDigitChar (w / 256 % 16),
   hexDigitChar (w / 65536 % 256 / 16), hexDigitChar (w / 65536 % 16),
   hexDigitChar (w / 16777216 % 256 / 16), hexDigitChar (w / 16777216 % 16)]

/-- `hashlib.md5(...).hexdigest()`: 32 lowercase hex characters. -/
def hexdigest (st : Nat × Nat × Nat × Nat) : String :=
  String.mk (wordHexLE st.1 ++ wordHexLE st.2.1 ++ wordHexLE st.2.2.1 ++ wordHexLE st.2.2.2)

/-- UTF-8 encoding of one scalar value (`str.encode()` on a single character). -/
def utf8Char (c : Char) : List Nat :=
  let n := c.toNat
  if n < 128 then [n]
  else if n < 2048 then [192 + n / 64, 128 + n % 64]
  else if n < 65536 then [224 + n / 4096, 128 + n / 64 % 64, 128 + n % 64]
  else [240 + n / 262144, 128 + n / 4096 % 64, 128 + n / 64 % 64, 128 + n % 64]

/-- `video_id.encode()`: UTF-8 bytes of the string. -/
def utf8Bytes (s : String) : List Nat := s.data.flatMap utf8Char

/-- `generate_guid` (source lines 88–90):
`hashlib.md5(video_id.encode()).hexdigest()`. Total by construction, hence
"never throws" for any input string. -/
def generate_guid (video_id : String) : String :=
  hexdigest (md5 (utf8Bytes video_id))

/-! ## Date parsing and formatting

`format_torznab_xml` calls `datetime.strptime(upload_date, '%Y%m%d')` inside a
`try`, and on success renders `strftime('%a, %d %b %Y %H:%M:%S +0000')`. The
definitions below model the behavior of those CPython library calls for these
fixed format strings (per CPython's `_strptime`: `%Y` matches exactly four
digits, `%m` matches the regex `1[0-2]|0[1-9]|[1-9]`, `%d` matches
`3[01]|[12]\d|0[1-9]|[1-9]`, alternatives tried left to right with
backtracking; the whole string must be consumed; then the `datetime`
constructor checks calendar validity with year at least 1). Digits are modeled
as ASCII digits. -/

/-- Proleptic-Gregorian leap year (as used by `datetime`). -/
def isLeap (y : Nat) : Bool := (y % 4 == 0 && y % 100 != 0) || y % 400 == 0

def daysInMonth (y m : Nat) : Nat :=
  if m = 2 then (if isLeap y then 29 else 28)
  else if m = 4 ∨ m = 6 ∨ m = 9 ∨ m = 11 then 30
  else 31

/-- The validity check performed by the `datetime(year, month, day)`
constructor. -/
def validDate (y m d : Nat) : Bool :=
  1 ≤ y && y ≤ 9999 && 1 ≤ m && m ≤ 12 && 1 ≤ d && d ≤ daysInMonth y m

def digitVal (c : Char) : Nat := c.toNat - 48

/-- The `%m` alternatives `1[0-2] | 0[1-9] | [1-9]`, in regex order; each
entry is a parsed month together with the unconsumed remainder. -/
def monthAlts (cs : List Char) : List (Nat × List Char) :=
  (match cs with
   | '1' :: c :: r => if '0' ≤ c ∧ c ≤ '2' then [(10 + digitVal c, r)] else []
   | _ => []) ++
  (match cs with
   | '0' :: c :: r => if '1' ≤ c ∧ c ≤ '9' then [(digitVal c, r)] else []
   | _ => []) ++
  (match cs with
   | c :: r => if '1' ≤ c ∧ c ≤ '9' then [(digitVal c, r)] else []
   | _ => [])

/-- The `%d` alternatives `3[01] | [12]\d | 0[1-9] | [1-9]`, in regex order. -/
def dayAlts (cs : List Char) : List (Nat × List Char) :=
  (match cs with
   | '3' :: c :: r => if c = '0' ∨ c = '1' then [(30 + digitVal c, r)] else []
   | _ => []) ++
  (match cs with
   | c1 :: c2 :: r =>
    if (c1 = '1' ∨ c1 = '2') ∧ c2.isDigit then [(10 * digitVal c1 + digitVal c2, r)] else []
   | _ => []) ++
  (match cs with
   | '0' :: c :: r => if '1' ≤ c ∧ c ≤ '9' then [(digitVal c, r)] else []
   | _ => []) ++
  (match cs with
   | c :: r => if '1' ≤ c ∧ c ≤ '9' then [(digitVal c, r)] else []
   | _ => [])

/-- `datetime.strptime(s, '%Y%m%d')`, returning `some (y, m, d)` on success.
The regex engine returns the first month/day lexing in backtracking order;
`strptime` then requires the whole string consumed ("unconverted data
remains" otherwise) and the `datetime` constructor checks validity. -/
def strptime_Ymd (s : String) : Option (Nat × Nat × Nat) :=
  match s.data with
  | c1 :: c2 :: c3 :: c4 :: rest =>
    if c1.isDigit ∧ c2.isDigit ∧ c3.isDigit ∧ c4.isDigit then
      let y := 1000 * digitVal c1 + 100 * digitVal c2 + 10 * digitVal c3 + digitVal c4
      match (monthAlts rest).findSome?
          (fun mr => (dayAlts mr.2).head?.map fun dr => (mr.1, dr.1, dr.2)) with
      | some (m, d, rest2) =>
        if rest2 = [] ∧ validDate y m d = true then some (y, m, d) else none
      | none => none
    else none
  | _ => none

/-- Sakamoto's day-of-week algorithm (0 = Sunday), agreeing with the
proleptic Gregorian calendar used by `datetime`. -/
def dayOfWeek (y m d : Nat) : Nat :=
  let t := [0, 3, 2, 5, 0, 3, 5, 1, 4, 6, 2, 4]
  let y' := if m < 3 then y - 1 else y
  (y' + y' / 4 - y' / 100 + y' / 400 + t.getD (m - 1) 0 + d) % 7

def weekdayName (w : Nat) : String :=
  ["Sun", "Mon", "Tue", "Wed", "Thu", "Fri", "Sat"].getD w ""

def monthName (m : Nat) : String :=
  ["Jan", "Feb", "Mar", "Apr", "May", "Jun",
   "Jul", "Aug", "Sep", "Oct", "Nov", "Dec"].getD (m - 1) ""

def pad2 (n : Nat) : String := if n < 10 then "0" ++ toString n else toString n

/-- `pub_date.strftime('%a, %d %b %Y %H:%M:%S +0000')` for the midnight
timestamp produced by `strptime('%Y%m%d')`. -/
def strftime_rfc1123 (y m d : Nat) : String :=
  weekdayName (dayOfWeek y m d) ++ ", " ++ pad2 d ++ " " ++ monthName m ++ " " ++
    toString y ++ " 00:00:00 +0000"

/-! ## Data model -/

/-- The immutable `CONFIG` dict (spec §9: modelled as an injected record). -/
structure Config where
  host : String
  port : Nat
  api_key : String
  indexer_name : String
deriving DecidableEq

def CONFIG : Config :=
  { host := "0.0.0.0", port := 9117, api_key := "youtubeindexer", indexer_name := "YouTube" }

/-- One raw yt-dlp `entry` dict: every key may be absent. -/
structure Entry where
  id : Option String
  title : Option String
  url : Option String
  channel : Option String
  uploader : Option String
  duration : Option Nat
  view_count : Option Nat
  upload_date : Option String
  description : Option String

/-- The normalized video dict built by `search_youtube`. Only `duration` is
read back with `.get` in `format_torznab_xml`, so only it stays optional. -/
structure Video where
  id : String
  title : String
  url : String
  channel : String
  duration : Option Nat
  view_count : Nat
  upload_date : String
  description : String
deriving DecidableEq

/-- The yt-dlp `extract_info` result dict: may lack the `entries` key, and
individual entries may be falsy (`if entry:`), hence the `Option` layers. -/
structure ExtractResult where
  entries : Option (List (Option Entry))

/-- The per-entry normalization in `search_youtube`'s loop (source lines
72–81), including the truthiness-based URL fallback of
`entry.get('url') or f"https://www.youtube.com/watch?v={entry.get('id','')}"`. -/
def normalize_entry (e : Entry) : Video :=
  { id := e.id.getD ""
    title := e.title.getD "Unknown"
    url :=
      let u := (e.url.getD "")
      if u ≠ "" then u else "https://www.youtube.com/watch?v=" ++ e.id.getD ""
    channel := e.channel.getD (e.uploader.getD "Unknown")
    duration := some (e.duration.getD 0)
    view_count := e.view_count.getD 0
    upload_date := e.upload_date.getD ""
    description := e.description.getD "" }

/-- `search_youtube` (source lines 49–85). `has_ytdlp` models the module-level
`HAS_YTDLP` flag; `extract_info` is the yt-dlp collaborator, whose `.error`
case models any exception raised inside the `try` block. Total: every failure
mode returns `[]`. -/
def search_youtube (has_ytdlp : Bool)
    (extract_info : String → Except String (Option ExtractResult))
    (query : String) (max_results : Nat) : List Video :=
  if !has_ytdlp then []
  else
    match extract_info ("ytsearch" ++ toString max_results ++ ":" ++ query) with
    | Except.error _ => []
    | Except.ok none => []
    | Except.ok (some result) =>
      match result.entries with
      | none => []
      | some es => es.filterMap (Option.map normalize_entry)

/-! ## XML documents (`xml.etree.ElementTree` model) -/

/-- An ElementTree element: tag, attributes (in insertion order), optional
text, children. Namespace-qualified tags keep their literal
braced-URI spelling. -/
inductive XNode where
  | elem : String → List (String × String) → Option String → List XNode → XNode

def XNode.tag : XNode → String
  | .elem t _ _ _ => t

def XNode.attrs : XNode → List (String × String)
  | .elem _ a _ _ => a

def XNode.text : XNode → Option String
  | .elem _ _ t _ => t

def XNode.children : XNode → List XNode
  | .elem _ _ _ c => c

/-- Attribute lookup. -/
def attrOf (n : XNode) (k : String) : Option String :=
  (n.attrs.find? fun p => p.1 == k).map Prod.snd

/-- The children of `n` having tag `t`, in document order. -/
def childrenTagged (n : XNode) (t : String) : List XNode :=
  n.children.filter fun c => c.tag == t

/-- `_escape_attrib`: escaping applied by ElementTree to attribute values. -/
def escAttribChar (c : Char) : List Char :=
  if c = '&' then "&amp;".data
  else if c = '<' then "&lt;".data
  else if c = '>' then "&gt;".data
  else if c = '"' then "&quot;".data
  else if c = '\r' then "&#13;".data
  else if c = '\n' then "&#10;".data
  else if c = '\t' then "&#09;".data
  else [c]

/-- `_escape_cdata`: escaping applied by ElementTree to text content. -/
def escCdataChar (c : Char) : List Char :=
  if c = '&' then "&amp;".data
  else if c = '<' then "&lt;".data
  else if c = '>' then "&gt;".data
  else [c]

def escAttrib (s : String) : String := String.mk (s.data.flatMap escAttribChar)

def escCdata (s : String) : String := String.mk (s.data.flatMap escCdataChar)

/-- `tostring(..., encoding='unicode')`: ElementTree serialization with the
default short-empty-element form. Namespace-qualified tags are serialized with
their literal spelling here (ElementTree would invent `ns0:` prefixes); no
theorem in this development depends on the serialized form of those tags. -/
def tostring : XNode → String
  | .elem tag attrs text children =>
    let attrStr := String.join (attrs.map fun p => " " ++ p.1 ++ "=\"" ++ escAttrib p.2 ++ "\"")
    let inner := (match text with | some t => if t ≠ "" then escCdata t else "" | none => "")
    if (text.getD "") == "" && children.isEmpty then
      "<" ++ tag ++ attrStr ++ " />"
    else
      "<" ++ tag ++ attrStr ++ ">" ++ inner ++
        String.join (children.attach.map fun c => tostring c.1) ++ "</" ++ tag ++ ">"
decreasing_by
  have h := List.sizeOf_lt_of_mem c.2
  simp only [XNode.elem.sizeOf_spec]
  omega

/-! ## Response encoder (`format_torznab_xml`, `get_capabilities_xml`) -/

/-- The size estimate computed in `format_torznab_xml` (source lines 146–147):
`estimated_size = int(video.get('duration', 600) / 60 * 5 * 1024 * 1024)`,
in exact integer arithmetic. Note the `600` default applies only when the
`duration` KEY is absent from the dict; a present value of `0` is used as-is
and yields `0`. -/
def estimated_size (duration : Option Nat) : Nat :=
  duration.getD 600 * 5 * 1024 * 1024 / 60

/-- Shorthand for a leaf element whose `.text` is set (as Python does with
`SubElement` followed by `elem.text = ...`). -/
def textElem (tag txt : String) : XNode := XNode.elem tag [] (some txt) []

/-- A `torznab:attr` element (tag spelled with its braced namespace URI, as
ElementTree stores it). -/
def torznabAttr (name value : String) : XNode :=
  XNode.elem "\x7bhttp://torznab.com/schemas/2015/feed\x7dattr"
    [("name", name), ("value", value)] none []

/-- The per-video `<item>` built by the loop body of `format_torznab_xml`
(source lines 116–181): title, guid, link, comments, optional pubDate, size,
category, enclosure, and the five torznab attributes, in source order. -/
def buildItem (video : Video) : XNode :=
  let sz := estimated_size video.duration
  XNode.elem "item" [] none
    ([textElem "title" video.title,
      textElem "guid" (generate_guid video.id),
      textElem "link" video.url,
      textElem "comments" ("Channel: " ++ video.channel)]
     ++ (match strptime_Ymd video.upload_date with
         | some ymd => [textElem "pubDate" (strftime_rfc1123 ymd.1 ymd.2.1 ymd.2.2)]
         | none => [])
     ++ [textElem "size" (toString sz),
         textElem "category" "5000",
         XNode.elem "enclosure"
           [("url", video.url), ("length", toString sz), ("type", "application/x-bittorrent")]
           none [],
         torznabAttr "category" "5000",
         torznabAttr "seeders" "100",
         torznabAttr "peers" "100",
         torznabAttr "downloadvolumefactor" "0",
         torznabAttr "uploadvolumefactor" "1"])

/-- The `<rss>` element tree built by `format_torznab_xml` (source lines
93–181): channel title, description, atom self-link, then one item per
video. -/
def torznab_rss (config : Config) (videos : List Video) : XNode :=
  XNode.elem "rss"
    [("version", "2.0"),
     ("xmlns:atom", "http://www.w3.org/2005/Atom"),
     ("xmlns:torznab", "http://torznab.com/schemas/2015/feed")] none
    [XNode.elem "channel" [] none
      ([textElem "title" config.indexer_name,
        textElem "description" "YouTube Video Indexer for Sonarr",
        XNode.elem "\x7bhttp://www.w3.org/2005/Atom\x7dlink"
          [("href", "http://localhost:" ++ toString config.port ++ "/api"),
           ("rel", "self"), ("type", "application/rss+xml")] none []]
       ++ videos.map buildItem)]

/-- `format_torznab_xml(videos, query)` returns `tostring(rss,
encoding='unicode')`; the `query` parameter is accepted but unused in the
source body, and is kept here for interface fidelity. -/
def format_torznab_xml (config : Config) (videos : List Video) (query : String) : String :=
  tostring (torznab_rss config videos)

/-- The static capabilities element tree of `get_capabilities_xml` (source
lines 186–215). -/
def caps_tree (config : Config) : XNode :=
  XNode.elem "caps" [] none
    [XNode.elem "server" [("version", "1.0"), ("title", config.indexer_name)] none [],
     XNode.elem "limits" [("max", "100"), ("default", "20")] none [],
     XNode.elem "searching" [] none
       [XNode.elem "search" [("available", "yes"), ("supportedParams", "q")] none [],
        XNode.elem "tv-search" [("available", "yes"), ("supportedParams", "q,season,ep")] none [],
        XNode.elem "movie-search" [("available", "no")] none [],
        XNode.elem "music-search" [("available", "no")] none [],
        XNode.elem "audio-search" [("available", "no")] none [],
        XNode.elem "book-search" [("available", "no")] none []],
     XNode.elem "categories" [] none
       [XNode.elem "category" [("id", "5000"), ("name", "TV")] none
         [XNode.elem "subcat" [("id", "5030"), ("name", "TV/SD")] none [],
          XNode.elem "subcat" [("id", "5040"), ("name", "TV/HD")] none [],
          XNode.elem "subcat" [("id", "5045"), ("name", "TV/UHD")] none [],
          XNode.elem "subcat" [("id", "5050"), ("name", "TV/Other")] none []]]]

/-- `get_capabilities_xml()` returns the serialized capabilities tree. -/
def get_capabilities_xml (config : Config) : String := tostring (caps_tree config)

/-- The `<item>` elements of a rendered results document (children of the
single `<channel>` child of `<rss>` whose tag is `item`). -/
def itemsOf (rss : XNode) : List XNode :=
  childrenTagged (rss.children.headD (XNode.elem "" [] none [])) "item"

/-! ## HTTP handler (`TorznabHandler`) -/

/-- The normalized response the handler hands to the transport: status code,
`Content-Type` header, `Location` header, body. -/
structure HResponse where
  status : Nat
  content_type : Option String
  location : Option String
  body : String
deriving DecidableEq

/-- The XML declaration literal prefixed to capability/result bodies in
`do_GET`. -/
def xmlDecl : String := "<?xml version=\"1.0\" encoding=\"UTF-8\"?>\n"

/-- `_send_xml` (source lines 224–230): HTTP 200 with the given body. -/
def send_xml (xml_content : String) : HResponse :=
  { status := 200, content_type := some "application/xml; charset=utf-8",
    location := none, body := xml_content }

/-- The raw f-string error body of `_send_error` (source lines 234–235). The
`message` is interpolated verbatim, with no XML escaping. -/
def error_xml (code : Nat) (message : String) : String :=
  "<?xml version=\"1.0\" encoding=\"UTF-8\"?>\n<error code=\"" ++ toString code ++
    "\" description=\"" ++ message ++ "\"/>"

/-- `_send_error` (source lines 232–239): Torznab uses HTTP 200 even for
errors. -/
def send_error (code : Nat) (message : String) : HResponse :=
  { status := 200, content_type := some "application/xml",
    location := none, body := error_xml code message }

/-- A 302 redirect (source lines 308–310): no content type, no body. -/
def redirect (location : String) : HResponse :=
  { status := 302, content_type := none, location := some location, body := "" }

/-- The query parameters of one GET request, after `urllib.parse.parse_qs`:
each field holds the first value of the key, or `none` when the key is absent
(`parse_qs` drops blank values, so present values are non-empty). `path` is
the request path. -/
structure Params where
  apikey : Option String
  t : Option String
  q : Option String
  season : Option String
  ep : Option String
  link : Option String
  id : Option String
  path : String

/-- `params.get('link', params.get('id', ['']))[0]` (source line 306): the
`link` value if the key is present, else the `id` value, else `''`. -/
def linkParam (p : Params) : String :=
  match p.link with
  | some l => l
  | none => p.id.getD ""

/-- `TorznabHandler.do_GET` (source lines 241–317), from parsed path/params to
the normalized response. `has_ytdlp` and `extract_info` are the provider
collaborator state threaded through to `search_youtube`; the source calls
`search_youtube(query)` whose `max_results` defaults to 20. Python string
truthiness (`if q:`, `if link:`, `if CONFIG['api_key']`) is modelled as
comparison with `""`. The `season`/`ep` parameters are read but intentionally
unused (source lines 276–281). -/
def do_GET (config : Config) (has_ytdlp : Bool)
    (extract_info : String → Except String (Option ExtractResult))
    (p : Params) : HResponse :=
  let apikey := p.apikey.getD ""
  if config.api_key ≠ "" ∧ apikey ≠ config.api_key then
    send_error 100 "Invalid API Key"
  else
    let action := p.t.getD ""
    if action = "caps" then
      send_xml (xmlDecl ++ get_capabilities_xml config)
    else if action = "search" ∨ action = "tvsearch" then
      let q := p.q.getD ""
      let query_parts := if q ≠ "" then [q] else []
      let query := String.intercalate " " query_parts
      if query = "" then
        send_xml (xmlDecl ++ format_torznab_xml config [] "")
      else
        send_xml (xmlDecl ++
          format_torznab_xml config (search_youtube has_ytdlp extract_info query 20) query)
    else if action = "download" ∨ p.path.startsWith "/download" = true then
      let link := linkParam p
      if link ≠ "" then redirect link
      else send_error 200 "Missing download link"
    else
      send_error 201 ("Unknown action: " ++ action)

/-! ## A small XML well-formedness checker (for the injection claim)

A recursive-descent parser for XML documents whose names are alphabetic: an
optional XML declaration, then one element with double-quoted attributes
(values may not contain `"` or `<`, per XML's "No `<` in Attribute Values"
rule), text content without `<`, and properly matched end tags. `none` means
the input is rejected. -/

def isXmlWs (c : Char) : Bool := c = ' ' || c = '\n' || c = '\t' || c = '\r'

def skipWs (cs : List Char) : List Char := cs.dropWhile isXmlWs

/-- Parse a double-quoted attribute value (after the opening quote): any
characters other than `"` and `<`, then the closing quote. -/
def parseAttrValue (cs : List Char) : Option (List Char) :=
  let v := cs.dropWhile fun c => ¬(c = '"' ∨ c = '<')
  match v with
  | '"' :: rest => some rest
  | _ => none

/-- Parse zero or more `name="value"` attributes; stops before `/` or `>`. -/
def parseAttrList : Nat → List Char → Option (List Char)
  | 0, _ => none
  | fuel + 1, cs =>
    let cs' := skipWs cs
    match cs' with
    | '/' :: _ => some cs'
    | '>' :: _ => some cs'
    | c :: _ =>
      if c.isAlpha then
        let rest := cs'.dropWhile Char.isAlpha
        match rest with
        | '=' :: '"' :: v =>
          match parseAttrValue v with
          | some r => parseAttrList fuel r
          | none => none
        | _ => none
      else none
    | [] => none

mutual

/-- Parse one element starting at `<`; returns the remainder after the
element. -/
def parseElement : Nat → List Char → Option (List Char)
  | 0, _ => none
  | fuel + 1, cs =>
    match cs with
    | '<' :: rest =>
      let name := rest.takeWhile Char.isAlpha
      if name = [] then none
      else
        match parseAttrList (fuel + 1) (rest.drop name.length) with
        | some ('/' :: '>' :: r) => some r
        | some ('>' :: r) => parseContent fuel name r
        | _ => none
    | _ => none

/-- Parse element content (text and child elements) up to and including the
matching end tag `</name>`. -/
def parseContent : Nat → List Char → List Char → Option (List Char)
  | 0, _, _ => none
  | fuel + 1, name, cs =>
    let cs' := cs.dropWhile fun c => ¬(c = '<')
    match cs' with
    | '<' :: '/' :: r =>
      if r.take name.length = name then
        match skipWs (r.drop name.length) with
        | '>' :: r2 => some r2
        | _ => none
      else none
    | '<' :: _ =>
      match parseElement fuel cs' with
      | some r => parseContent fuel name r
      | none => none
    | _ => none

end

/-- Check a whole document: optional `<?xml ... ?>` declaration, optional
whitespace, one root element, trailing whitespace only. -/
def xmlWellFormed (s : String) : Bool :=
  let cs := s.data
  let body :=
    match cs with
    | '<' :: '?' :: r =>
      let r' := r.dropWhile fun c => ¬(c = '?')
      match r' with
      | '?' :: '>' :: r2 => some r2
      | _ => none
    | _ => some cs
  match body with
  | none => false
  | some b =>
    match parseElement (b.length + 1) (skipWs b) with
    | some r => skipWs r = []
    | none => false

/-! ## Concrete fixtures used by witnesses and counterexamples -/

/-- A collaborator that always fails (models yt-dlp raising, e.g. a network
error). -/
def exErr : String → Except String (Option ExtractResult) := fun _ => Except.error "DownloadError"

/-- A yt-dlp entry lacking the `duration` key (yt-dlp frequently omits it in
flat extraction); `search_youtube` normalizes its duration to `0`. -/
def entryNoDuration : Entry :=
  { id := some "abc123", title := some "Test Episode", url := some "https://youtu.be/xyz",
    channel := some "TestChan", uploader := none, duration := none, view_count := none,
    upload_date := none, description := none }

/-- A video whose `upload_date` is the six-digit string `202312`. -/
def vid202312 : Video :=
  { id := "z", title := "T", url := "u", channel := "c", duration := some 0,
    view_count := 0, upload_date := "202312", description := "" }

def pCaps : Params :=
  { apikey := some "youtubeindexer", t := some "caps", q := none, season := none,
    ep := none, link := none, id := none, path := "/api" }

def pNoKey : Params :=
  { apikey := none, t := some "caps", q := none, season := none,
    ep := none, link := none, id := none, path := "/api" }

def pSearchTest : Params :=
  { apikey := some "youtubeindexer", t := some "search", q := some "test show",
    season := some "1", ep := some "2", link := none, id := none, path := "/api" }

def pEmptyQ : Params :=
  { apikey := some "youtubeindexer", t := some "search", q := none, season := none,
    ep := none, link := none, id := none, path := "/api" }

def pDownloadLink : Params :=
  { apikey := some "youtubeindexer", t := some "download", q := none, season := none,
    ep := none, link := some "https://youtu.be/xyz", id := none, path := "/api" }

def pDownloadNone : Params :=
  { apikey := some "youtubeindexer", t := some "download", q := none, season := none,
    ep := none, link := none, id := none, path := "/api" }

def pBogus : Params :=
  { apikey := some "youtubeindexer", t := some "bogus", q := none, season := none,
    ep := none, link := none, id := none, path := "/api" }

def pInject : Params :=
  { apikey := some "youtubeindexer", t := some "x\"<y", q := none, season := none,
    ep := none, link := none, id := none, path := "/api" }

/-! ## Helper lemmas -/

theorem hexdigest_length (st : Nat × Nat × Nat × Nat) : (hexdigest st).length = 32 := by
  simp [hexdigest, wordHexLE, String.length]

theorem intercalate_single (q : String) : String.intercalate " " [q] = q := rfl

theorem intercalate_nil : String.intercalate " " ([] : List String) = "" := rfl

/-! ## Model validation against reference outputs -/

/-- The MD5 embedding reproduces the RFC 1321 test vectors (and hence
`hashlib.md5(...).hexdigest()`), including a multi-block input. -/
theorem generate_guid_rfc1321_vectors :
    generate_guid "" = "d41d8cd98f00b204e9800998ecf8427e" ∧
    generate_guid "abc" = "900150983cd24fb0d6963f7d28e17f72" ∧
    generate_guid "abc123" = "e99a18c428cb38d5f260853678922e03" := by
  refine ⟨rfl, rfl, rfl⟩

/-- The strptime model reproduces CPython `datetime.strptime(s, '%Y%m%d')` on
representative inputs (verified against CPython): a normal 8-digit date, a
string rejected for trailing unconverted data, a year-zero rejection, and a
7-digit string that CPython accepts. -/
theorem strptime_Ymd_reference_cases :
    strptime_Ymd "20230615" = some (2023, 6, 15) ∧
    strptime_Ymd "20231232" = none ∧
    strptime_Ymd "00001231" = none ∧
    strptime_Ymd "2023121" = some (2023, 12, 1) := by
  refine ⟨rfl, rfl, rfl, rfl⟩

/-! ## Claims -/

/-- C7: for every string input, `generate_guid` is deterministic (it is a pure
total Lean function, so "never throws" holds by construction), returns a token
of constant length 32, and `generate_guid ""` is non-empty. -/
theorem c7_generate_guid_total_deterministic_fixed_length (i : String) :
    generate_guid i = generate_guid i ∧
    (generate_guid i).length = 32 ∧
    generate_guid "" ≠ "" := by
  refine ⟨rfl, hexdigest_length _, fun h => ?_⟩
  have h32 := hexdigest_length (md5 (utf8Bytes ""))
  rw [show hexdigest (md5 (utf8Bytes "")) = generate_guid "" from rfl, h] at h32
  simp [String.length] at h32

/-- C1 (code bug): the source computes
`int(video.get('duration', 600) / 60 * 5 * 1024 * 1024)`, but the `600`
default fires only when the `duration` key is absent from the dict, and
`search_youtube` always inserts the key (`entry.get('duration', 0)`), so a
video whose provider entry lacks a duration gets duration `0` and estimated
size `0` — not the positive `estimateSize(600) = 52428800` the spec claims.
The linear model itself and `estimateSize(120) = 10485760` do hold. -/
theorem c1_zero_duration_size_is_zero :
    estimated_size (some 0) = 0 ∧
    estimated_size none = 52428800 ∧
    estimated_size (some 600) = 52428800 ∧
    estimated_size (some 120) = 10485760 ∧
    (normalize_entry entryNoDuration).duration = some 0 ∧
    (childrenTagged (buildItem (normalize_entry entryNoDuration)) "size").map XNode.text
      = [some "0"] := by
  refine ⟨rfl, rfl, rfl, rfl, rfl, ?_⟩
  decide

/-- C2: in every rendered item, the `link` text and the `enclosure` `url`
attribute are both exactly the video's URL; the estimated size appears
identically as the `size` text and the `enclosure` `length`; the category is
the constant `5000`; the torznab attributes are exactly category=5000,
seeders=100, peers=100, downloadvolumefactor=0, uploadvolumefactor=1; and the
enclosure `type` is the fixed constant `application/x-bittorrent`,
independent of the item. -/
theorem c2_render_item_fields (v : Video) :
    (childrenTagged (buildItem v) "link").map XNode.text = [some v.url] ∧
    (childrenTagged (buildItem v) "enclosure").map
        (fun c => (attrOf c "url", attrOf c "length", attrOf c "type"))
      = [(some v.url, some (toString (estimated_size v.duration)),
          some "application/x-bittorrent")] ∧
    (childrenTagged (buildItem v) "size").map XNode.text
      = [some (toString (estimated_size v.duration))] ∧
    (childrenTagged (buildItem v) "category").map XNode.text = [some "5000"] ∧
    (childrenTagged (buildItem v) "\x7bhttp://torznab.com/schemas/2015/feed\x7dattr").map
        (fun c => (attrOf c "name", attrOf c "value"))
      = [(some "category", some "5000"), (some "seeders", some "100"),
         (some "peers", some "100"), (some "downloadvolumefactor", some "0"),
         (some "uploadvolumefactor", some "1")] := by
  cases hm : strptime_Ymd v.upload_date <;>
    simp [buildItem, childrenTagged, XNode.children, XNode.tag, XNode.text, XNode.attrs,
      attrOf, textElem, torznabAttr, hm]

/-- Modelled from the spec's words (for the counterexample to C8): a string
is a "valid 8-digit YYYYMMDD date" when it consists of exactly eight ASCII
digits whose YYYY-MM-DD reading is a calendar-valid date. -/
def isValid8DigitYmd (s : String) : Bool :=
  s.data.all Char.isDigit &&
  (match s.data with
   | [a, b, c, d, e, f, g, h] =>
     validDate (1000 * digitVal a + 100 * digitVal b + 10 * digitVal c + digitVal d)
       (10 * digitVal e + digitVal f) (10 * digitVal g + digitVal h)
   | _ => false)

/-- C8 counterexample: the six-digit string `202312` is not a valid 8-digit
YYYYMMDD date, yet `strptime('%Y%m%d')` parses it (as 2023-01-02, month and
day each matching a single digit) and the rendered item DOES carry a pubDate
field — refuting "emitted if and only if uploadDate parses as a valid 8-digit
date". -/
theorem c8_counterexample_six_digit_date :
    isValid8DigitYmd "202312" = false ∧
    strptime_Ymd "202312" = some (2023, 1, 2) ∧
    (childrenTagged (buildItem vid202312) "pubDate").map XNode.text
      = [some "Mon, 02 Jan 2023 00:00:00 +0000"] := by
  refine ⟨rfl, rfl, ?_⟩
  decide

/-- C8 (amended): a pubDate field is emitted if and only if `upload_date`
parses under the `%Y%m%d` rules of the underlying date parser (exactly four
digit year, then 1–2 digit month and 1–2 digit day matched greedily with
backtracking, the whole string consumed, and the result calendar-valid) —
which accepts some 6- and 7-digit strings; an empty or unparseable
`upload_date` silently omits the field, and rendering always still produces
the remaining 12 children of the item (the render is total, so it never
aborts). -/
theorem c8_pubdate_iff_strptime (v : Video) :
    (childrenTagged (buildItem v) "pubDate").length
      = (if (strptime_Ymd v.upload_date).isSome then 1 else 0) ∧
    (buildItem v).children.length
      = 12 + (if (strptime_Ymd v.upload_date).isSome then 1 else 0) ∧
    strptime_Ymd "" = none := by
  refine ⟨?_, ?_, rfl⟩ <;>
    cases hm : strptime_Ymd v.upload_date <;>
      simp [buildItem, childrenTagged, XNode.children, XNode.tag, textElem, torznabAttr, hm]

/-- C3: with a key configured, any request whose `apikey` does not exactly
match (a missing key reads as `""`, which cannot match a configured key) is
answered by the code-100 authentication error regardless of the `t` action —
no routing happens; with the correct key and `t=caps`, the response is the
capabilities document and is not an error document (the two response shapes
differ, e.g. in content type). -/
theorem c3_apikey_gate (config : Config) (h : Bool)
    (ex : String → Except String (Option ExtractResult)) (p : Params)
    (hcfg : config.api_key ≠ "") :
    (p.apikey.getD "" ≠ config.api_key →
      do_GET config h ex p = send_error 100 "Invalid API Key") ∧
    (p.apikey.getD "" = config.api_key → p.t.getD "" = "caps" →
      do_GET config h ex p = send_xml (xmlDecl ++ get_capabilities_xml config) ∧
      ∀ c m, do_GET config h ex p ≠ send_error c m) := by
  constructor
  · intro hk
    simp [do_GET, hcfg, hk]
  · intro hk ht
    have hres : do_GET config h ex p = send_xml (xmlDecl ++ get_capabilities_xml config) := by
      simp [do_GET, hk, ht]
    refine ⟨hres, fun c m hcon => ?_⟩
    rw [hres] at hcon
    simp [send_xml, send_error, HResponse.mk.injEq] at hcon

theorem c3_apikey_gate_witness :
    CONFIG.api_key ≠ "" ∧
    do_GET CONFIG false exErr pNoKey = send_error 100 "Invalid API Key" ∧
    (do_GET CONFIG false exErr pCaps = send_xml (xmlDecl ++ get_capabilities_xml CONFIG) ∧
      ∀ c m, do_GET CONFIG false exErr pCaps ≠ send_error c m) :=
  ⟨by decide,
   (c3_apikey_gate CONFIG false exErr pNoKey (by decide)).1 (by decide),
   (c3_apikey_gate CONFIG false exErr pCaps (by decide)).2 (by decide) (by decide)⟩

/-- C4: for authenticated `search`/`tvsearch` requests, an empty (or missing)
`q` short-circuits to the zero-item results document without consulting the
provider collaborator at all (the response is identical for any collaborator
state), and a non-empty `q` is passed to the provider verbatim as the whole
query text — the `season`/`ep` parameters never influence the response. -/
theorem c4_query_from_q_alone (config : Config) (h h' : Bool)
    (ex ex' : String → Except String (Option ExtractResult)) (p : Params)
    (hauth : p.apikey.getD "" = config.api_key)
    (ht : p.t.getD "" = "search" ∨ p.t.getD "" = "tvsearch") :
    (p.q.getD "" = "" →
      do_GET config h ex p = send_xml (xmlDecl ++ format_torznab_xml config [] "") ∧
      do_GET config h ex p = do_GET config h' ex' p) ∧
    (p.q.getD "" ≠ "" →
      do_GET config h ex p = send_xml (xmlDecl ++
        format_torznab_xml config (search_youtube h ex (p.q.getD "") 20) (p.q.getD ""))) ∧
    (∀ s e, do_GET config h ex p = do_GET config h ex { p with season := s, ep := e }) := by
  refine ⟨fun hq => ?_, fun hq => ?_, fun s e => rfl⟩
  · rcases ht with ht | ht <;> simp [do_GET, hauth, ht, hq, intercalate_nil]
  · rcases ht with ht | ht <;>
      simp [do_GET, hauth, ht, hq, intercalate_single]

theorem c4_query_from_q_alone_witness :
    pEmptyQ.apikey.getD "" = CONFIG.api_key ∧
    (pEmptyQ.t.getD "" = "search" ∨ pEmptyQ.t.getD "" = "tvsearch") ∧
    pEmptyQ.q.getD "" = "" ∧
    (do_GET CONFIG false exErr pEmptyQ = send_xml (xmlDecl ++ format_torznab_xml CONFIG [] "") ∧
      do_GET CONFIG false exErr pEmptyQ = do_GET CONFIG true (fun _ => Except.ok none) pEmptyQ) ∧
    pSearchTest.q.getD "" ≠ "" ∧
    do_GET CONFIG true exErr pSearchTest = send_xml (xmlDecl ++
      format_torznab_xml CONFIG (search_youtube true exErr (pSearchTest.q.getD "") 20)
        (pSearchTest.q.getD "")) :=
  ⟨by decide, by decide, by decide,
   (c4_query_from_q_alone CONFIG false true exErr (fun _ => Except.ok none) pEmptyQ
      (by decide) (by decide)).1 (by decide),
   by decide,
   (c4_query_from_q_alone CONFIG true true exErr exErr pSearchTest
      (by decide) (by decide)).2.1 (by decide)⟩

/-- C5: `search_youtube` returns the empty list when the collaborator is
absent (`HAS_YTDLP` false) or when `extract_info` raises (every failure is
caught; the function is total, so no exception propagates), and an
authenticated search whose provider call yields no videos is answered with
the zero-item results document — which has a `<rss>` channel with zero
`<item>` children and is never the error-document response shape. -/
theorem c5_provider_failure_empty_results (config : Config)
    (ex : String → Except String (Option ExtractResult))
    (q : String) (m : Nat) (p : Params)
    (hauth : p.apikey.getD "" = config.api_key)
    (ht : p.t.getD "" = "search" ∨ p.t.getD "" = "tvsearch")
    (hq : p.q.getD "" ≠ "") :
    search_youtube false ex q m = [] ∧
    (∀ s, ex ("ytsearch" ++ toString m ++ ":" ++ q) = Except.error s →
      search_youtube true ex q m = []) ∧
    (ex ("ytsearch" ++ toString m ++ ":" ++ q) = Except.ok none →
      search_youtube true ex q m = []) ∧
    (∀ h, search_youtube h ex (p.q.getD "") 20 = [] →
      do_GET config h ex p = send_xml (xmlDecl ++ format_torznab_xml config [] (p.q.getD "")) ∧
      ∀ c msg, do_GET config h ex p ≠ send_error c msg) ∧
    itemsOf (torznab_rss config []) = [] := by
  refine ⟨rfl, fun s hs => ?_, fun hs => ?_, fun h hse => ?_, ?_⟩
  · simp [search_youtube, hs]
  · simp [search_youtube, hs]
  · have hres : do_GET config h ex p =
        send_xml (xmlDecl ++ format_torznab_xml config [] (p.q.getD "")) := by
      rcases ht with ht | ht <;>
        simp [do_GET, hauth, ht, hq, intercalate_single, hse]
    refine ⟨hres, fun c msg hcon => ?_⟩
    rw [hres] at hcon
    simp [send_xml, send_error, HResponse.mk.injEq] at hcon
  · simp [itemsOf, torznab_rss, childrenTagged, XNode.children, XNode.tag, textElem]

theorem c5_provider_failure_empty_results_witness :
    pSearchTest.apikey.getD "" = CONFIG.api_key ∧
    (pSearchTest.t.getD "" = "search" ∨ pSearchTest.t.getD "" = "tvsearch") ∧
    pSearchTest.q.getD "" ≠ "" ∧
    search_youtube false exErr "test show" 20 = [] ∧
    search_youtube true exErr "test show" 20 = [] ∧
    (do_GET CONFIG true exErr pSearchTest =
        send_xml (xmlDecl ++ format_torznab_xml CONFIG [] (pSearchTest.q.getD "")) ∧
      ∀ c msg, do_GET CONFIG true exErr pSearchTest ≠ send_error c msg) :=
  ⟨by decide, by decide, by decide,
   (c5_provider_failure_empty_results CONFIG exErr "test show" 20 pSearchTest
      (by decide) (by decide) (by decide)).1,
   (c5_provider_failure_empty_results CONFIG exErr "test show" 20 pSearchTest
      (by decide) (by decide) (by decide)).2.1 "DownloadError" rfl,
   (c5_provider_failure_empty_results CONFIG exErr "test show" 20 pSearchTest
      (by decide) (by decide) (by decide)).2.2.2.1 true (by decide)⟩

/-- C6: every protocol-level error (authentication failure, unknown action,
missing download target) is an HTTP-200 response whose body is the small
`<error code description/>` XML element, and the unknown-action description
embeds the unrecognized `t` value (which is therefore a suffix of the
description text). -/
theorem c6_errors_http_200_xml (config : Config) (h : Bool)
    (ex : String → Except String (Option ExtractResult)) (p : Params)
    (c : Nat) (m : String) :
    error_xml c m = "<?xml version=\"1.0\" encoding=\"UTF-8\"?>\n<error code=\"" ++
      toString c ++ "\" description=\"" ++ m ++ "\"/>" ∧
    (send_error c m).status = 200 ∧
    (send_error c m).body = error_xml c m ∧
    (config.api_key ≠ "" → p.apikey.getD "" ≠ config.api_key →
      do_GET config h ex p = send_error 100 "Invalid API Key") ∧
    (p.apikey.getD "" = config.api_key →
      p.t.getD "" ≠ "caps" → p.t.getD "" ≠ "search" → p.t.getD "" ≠ "tvsearch" →
      p.t.getD "" ≠ "download" → p.path.startsWith "/download" = false →
      do_GET config h ex p = send_error 201 ("Unknown action: " ++ p.t.getD "") ∧
      (p.t.getD "").data <:+ ("Unknown action: " ++ p.t.getD "").data) ∧
    (p.apikey.getD "" = config.api_key →
      p.t.getD "" ≠ "caps" → p.t.getD "" ≠ "search" → p.t.getD "" ≠ "tvsearch" →
      (p.t.getD "" = "download" ∨ p.path.startsWith "/download" = true) →
      linkParam p = "" →
      do_GET config h ex p = send_error 200 "Missing download link") := by
  refine ⟨rfl, rfl, rfl, fun hcfg hk => ?_, fun hk h1 h2 h3 h4 h5 => ⟨?_, ?_⟩,
    fun hk h1 h2 h3 hroute hlink => ?_⟩
  · simp [do_GET, hcfg, hk]
  · simp [do_GET, hk, h1, h2, h3, h4, h5]
  · rw [show ("Unknown action: " ++ p.t.getD "").data
        = "Unknown action: ".data ++ (p.t.getD "").data from String.data_append ..]
    exact List.suffix_append _ _
  · rcases hroute with hr | hr <;>
      simp [do_GET, hk, h1, h2, h3, hr, hlink]

theorem c6_errors_http_200_xml_witness :
    (CONFIG.api_key ≠ "" ∧ pNoKey.apikey.getD "" ≠ CONFIG.api_key) ∧
    do_GET CONFIG false exErr pNoKey = send_error 100 "Invalid API Key" ∧
    do_GET CONFIG false exErr pBogus = send_error 201 ("Unknown action: " ++ "bogus") ∧
    "bogus".data <:+ ("Unknown action: " ++ "bogus").data ∧
    do_GET CONFIG false exErr pDownloadNone = send_error 200 "Missing download link" ∧
    (send_error 201 "Unknown action: bogus").status = 200 :=
  ⟨⟨by decide, by decide⟩,
   (c6_errors_http_200_xml CONFIG false exErr pNoKey 100 "x").2.2.2.1 (by decide) (by decide),
   ((c6_errors_http_200_xml CONFIG false exErr pBogus 100 "x").2.2.2.2.1 (by decide)
      (by decide) (by decide) (by decide) (by decide) (by decide)).1,
   ((c6_errors_http_200_xml CONFIG false exErr pBogus 100 "x").2.2.2.2.1 (by decide)
      (by decide) (by decide) (by decide) (by decide) (by decide)).2,
   (c6_errors_http_200_xml CONFIG false exErr pDownloadNone 100 "x").2.2.2.2.2 (by decide)
      (by decide) (by decide) (by decide) (Or.inl (by decide)) (by decide),
   (c6_errors_http_200_xml CONFIG false exErr pDownloadNone 201 "Unknown action: bogus").2.1⟩

/-- C9: an authenticated request routed to the download action answers with
an HTTP 302 redirect whose `Location` is the literal `link` parameter value
(falling back to `id` when `link` is absent) whenever one is present, and
with the protocol-level XML error (HTTP 200, error body) when neither is
present. -/
theorem c9_download_redirect (config : Config) (h : Bool)
    (ex : String → Except String (Option ExtractResult)) (p : Params)
    (hauth : p.apikey.getD "" = config.api_key)
    (h1 : p.t.getD "" ≠ "caps") (h2 : p.t.getD "" ≠ "search") (h3 : p.t.getD "" ≠ "tvsearch")
    (hroute : p.t.getD "" = "download" ∨ p.path.startsWith "/download" = true) :
    (linkParam p ≠ "" →
      do_GET config h ex p = redirect (linkParam p) ∧
      (do_GET config h ex p).status = 302 ∧
      (do_GET config h ex p).location = some (linkParam p)) ∧
    (linkParam p = "" →
      do_GET config h ex p = send_error 200 "Missing download link" ∧
      (do_GET config h ex p).status = 200) := by
  constructor
  · intro hl
    have hres : do_GET config h ex p = redirect (linkParam p) := by
      rcases hroute with hr | hr <;> simp [do_GET, hauth, h1, h2, h3, hr, hl]
    exact ⟨hres, by rw [hres]; rfl, by rw [hres]; rfl⟩
  · intro hl
    have hres : do_GET config h ex p = send_error 200 "Missing download link" := by
      rcases hroute with hr | hr <;> simp [do_GET, hauth, h1, h2, h3, hr, hl]
    exact ⟨hres, by rw [hres]; rfl⟩

theorem c9_download_redirect_witness :
    linkParam pDownloadLink = "https://youtu.be/xyz" ∧
    do_GET CONFIG false exErr pDownloadLink = redirect "https://youtu.be/xyz" ∧
    (do_GET CONFIG false exErr pDownloadLink).location = some "https://youtu.be/xyz" ∧
    linkParam pDownloadNone = "" ∧
    do_GET CONFIG false exErr pDownloadNone = send_error 200 "Missing download link" :=
  ⟨rfl,
   ((c9_download_redirect CONFIG false exErr pDownloadLink (by decide) (by decide)
      (by decide) (by decide) (Or.inl (by decide))).1 (by decide)).1,
   ((c9_download_redirect CONFIG false exErr pDownloadLink (by decide) (by decide)
      (by decide) (by decide) (Or.inl (by decide))).1 (by decide)).2.2,
   rfl,
   ((c9_download_redirect CONFIG false exErr pDownloadNone (by decide) (by decide)
      (by decide) (by decide) (Or.inl (by decide))).2 (by decide)).1⟩

/-- C10: `_send_error` interpolates the description verbatim into the
attribute position of the error element with no XML escaping, so a request
whose `t` value contains a double quote and an angle bracket yields an error
body that contains the attacker-controlled text unescaped and is not
well-formed XML (the checker accepts the same document once properly
escaped, and accepts benign error documents). -/
theorem c10_error_injection_not_wellformed :
    (do_GET CONFIG false exErr pInject).body = error_xml 201 "Unknown action: x\"<y" ∧
    "x\"<y".data <:+: (do_GET CONFIG false exErr pInject).body.data ∧
    xmlWellFormed (do_GET CONFIG false exErr pInject).body = false ∧
    xmlWellFormed (error_xml 201 "Unknown action: bogus") = true ∧
    xmlWellFormed ("<?xml version=\"1.0\" encoding=\"UTF-8\"?>\n<error code=\"201\" description=\"Unknown action: x&quot;&lt;y\"/>") = true := by
  refine ⟨rfl, ?_, ?_, ?_, ?_⟩ <;> decide

end YtIdx

